/-
  Verification of the "chamados" (support-ticket) REST API.

  The repository contains three near-duplicate variants of the same six-route
  handler set:
    * `src/src/server.js`            — embedded below in namespace `SJ`
    * `src/unnamed/part_001`         — a second `server.js` revision, namespace `P1`
    * `src/unnamed/part_002`         — `chamados.routes.js` (router variant), namespace `RT`
  All three issue one parameterized SQL statement per request against a
  PostgreSQL pool.  The embedding models:
    * JSON values appearing in request bodies (`JsVal`),
    * JavaScript's `Number(string)` conversion on route parameters (`jsNumber`),
      with numeric values represented as exact rationals (IEEE-754 rounding of
      extreme literals is not modelled),
    * the relational store as a list of rows plus a fresh-id counter and a
      clock for the `DEFAULT NOW()` timestamp columns (`Store`); the schema in
      `src/src/banco.sql` has no update trigger, so UPDATE statements leave
      `dataCriacao` and `dataAtualizacao` unchanged,
    * each route handler as a function from request data, an injected store
      outcome (`none` = the statement succeeds, `some e` = the pool raises an
      error carrying message `e`) and a store state to a response, a new store
      state and the list of SQL statements issued (`HandlerOut`).
-/
import Mathlib

/-! ### JSON values -/

/-- A JSON value as it can occur in a parsed request body (`express.json()`
produces no `undefined` and no `NaN`). -/
inductive JsVal where
  | null
  | bool (b : Bool)
  | num (q : ℚ)
  | str (s : String)
deriving DecidableEq, Repr

/-- A JavaScript number: NaN, the infinities, or a finite value
(represented exactly as a rational). -/
inductive JsNum where
  | nan
  | inf
  | ninf
  | fin (q : ℚ)
deriving DecidableEq, Repr

/-! ### The `Number(string)` conversion used on `req.params.id`

JavaScript trims whitespace, maps the empty string to `0`, and accepts
signed decimal literals (with optional fraction and exponent), `Infinity`,
and unsigned hex/octal/binary literals; everything else is `NaN`. -/

def jsWs (c : Char) : Bool :=
  c = ' ' || c = '\t' || c = '\n' || c = '\r' || c = '\x0b' || c = '\x0c'

def trimWs (l : List Char) : List Char :=
  ((l.dropWhile jsWs).reverse.dropWhile jsWs).reverse

def digitsNat (l : List Char) : Nat :=
  l.foldl (fun a c => 10 * a + (c.toNat - 48)) 0

/-- Split a character list at the first character satisfying `p`;
returns the prefix and, if a split occurred, the remainder. -/
def splitAtChar (p : Char → Bool) : List Char → List Char × Option (List Char)
  | [] => ([], none)
  | c :: cs =>
    if p c then ([], some cs)
    else
      let r := splitAtChar p cs
      (c :: r.1, r.2)

/-- Exponent part of a decimal literal: optionally signed digit string. -/
def parseExp : List Char → Option Int
  | [] => none
  | '+' :: cs => if cs ≠ [] ∧ cs.all Char.isDigit then some (digitsNat cs) else none
  | '-' :: cs => if cs ≠ [] ∧ cs.all Char.isDigit then some (-(digitsNat cs : Int)) else none
  | cs => if cs.all Char.isDigit then some (digitsNat cs) else none

/-- Mantissa of a decimal literal: digits with at most one dot, at least one
digit overall (`"5."`, `".5"` are legal, `"."` and `""` are not). -/
def parseMant (l : List Char) : Option ℚ :=
  match splitAtChar (fun c => c = '.') l with
  | (ip, none) =>
    if ip ≠ [] ∧ ip.all Char.isDigit then some (digitsNat ip) else none
  | (ip, some fp) =>
    if (ip ≠ [] ∨ fp ≠ []) ∧ ip.all Char.isDigit ∧ fp.all Char.isDigit then
      some ((digitsNat ip : ℚ) + (digitsNat fp : ℚ) / 10 ^ fp.length)
    else none

/-- Unsigned decimal literal with optional exponent. -/
def parseDec (l : List Char) : Option ℚ :=
  match splitAtChar (fun c => c = 'e' || c = 'E') l with
  | (m, none) => parseMant m
  | (m, some x) =>
    match parseMant m, parseExp x with
    | some mv, some xv => some (mv * (10 : ℚ) ^ xv)
    | _, _ => none

def hexDigit (c : Char) : Option Nat :=
  if c.isDigit then some (c.toNat - 48)
  else if 'a' ≤ c ∧ c ≤ 'f' then some (c.toNat - 87)
  else if 'A' ≤ c ∧ c ≤ 'F' then some (c.toNat - 55)
  else none

def parseRadix (base : Nat) : List Char → Option Nat
  | [] => none
  | l =>
    l.foldl
      (fun a c =>
        match a, hexDigit c with
        | some n, some d => if d < base then some (base * n + d) else none
        | _, _ => none)
      (some 0)

/-- The value of `Number(s)` for a string `s` (finite values exact). -/
def jsNumber (s : String) : JsNum :=
  match trimWs s.data with
  | [] => .fin 0
  | '0' :: 'x' :: r => (parseRadix 16 r).elim .nan (fun n => .fin n)
  | '0' :: 'X' :: r => (parseRadix 16 r).elim .nan (fun n => .fin n)
  | '0' :: 'o' :: r => (parseRadix 8 r).elim .nan (fun n => .fin n)
  | '0' :: 'O' :: r => (parseRadix 8 r).elim .nan (fun n => .fin n)
  | '0' :: 'b' :: r => (parseRadix 2 r).elim .nan (fun n => .fin n)
  | '0' :: 'B' :: r => (parseRadix 2 r).elim .nan (fun n => .fin n)
  | '+' :: r =>
    if r = "Infinity".data then .inf
    else (parseDec r).elim .nan .fin
  | '-' :: r =>
    if r = "Infinity".data then .ninf
    else (parseDec r).elim .nan (fun q => .fin (-q))
  | l =>
    if l = "Infinity".data then .inf
    else (parseDec l).elim .nan .fin

/-- `Number(v)` for a JSON value (used by the `part_001` variant on
`Usuarios_id`). -/
def jsToNumber : JsVal → JsNum
  | .null => .fin 0
  | .bool b => .fin (if b then 1 else 0)
  | .num q => .fin q
  | .str s => jsNumber s

/-! ### Shared request-handling helpers -/

/-- `const id = Number(req.params.id); if (!Number.isInteger(id) || id <= 0)`:
all six id-taking handlers accept exactly the strings whose numeric value is a
positive integer, and use that integer. -/
def parseId (s : String) : Option Int :=
  match jsNumber s with
  | .fin q => if q.den = 1 ∧ 0 < q then some q.num else none
  | _ => none

/-- JavaScript truthiness of a defined JSON value
(`null`, `false`, `0` and `""` are falsy). -/
def jsTruthy : JsVal → Bool
  | .null => false
  | .bool b => b
  | .num q => q ≠ 0
  | .str s => s ≠ ""

/-- A request-body field: `none` models an absent key (destructures to
`undefined`). -/
abbrev JField := Option JsVal

/-- Truthiness of a possibly-undefined value. -/
def fTruthy : JField → Bool
  | none => false
  | some v => jsTruthy v

/-- `Number.isInteger(x)`. -/
def fIsInteger : JField → Bool
  | some (.num q) => q.den = 1
  | _ => false

/-- `x <= 0`, evaluated only after `Number.isInteger(x)` has succeeded. -/
def fLeZero : JField → Bool
  | some (.num q) => q ≤ 0
  | _ => false

/-- `typeof x === "string"`. -/
def fIsString : JField → Bool
  | some (.str _) => true
  | _ => false

/-- `x == null` (loose equality: true for `null` and `undefined`). -/
def fLooseNull : JField → Bool
  | none => true
  | some .null => true
  | _ => false

/-- `x ?? null`; also how the `pg` driver serializes an `undefined`
parameter. -/
def fOrNull : JField → JsVal
  | none => .null
  | some v => v

/-- A parsed request body, restricted to the four keys the handlers
destructure plus a count of any other keys (visible only through
`Object.keys(req.body).length`).  A request without a JSON body behaves like
`{}` (the handlers write `req.body ?? {}`). -/
structure Body where
  Usuarios_id : JField
  texto : JField
  estado : JField
  urlImagem : JField
  otherKeys : Nat
deriving DecidableEq, Repr

/-- `Object.keys(req.body ?? {}).length`. -/
def Body.keyCount (b : Body) : Nat :=
  (if b.Usuarios_id.isSome then 1 else 0) + (if b.texto.isSome then 1 else 0) +
  (if b.estado.isSome then 1 else 0) + (if b.urlImagem.isSome then 1 else 0) +
  b.otherKeys

/-! ### The relational store -/

/-- One row of the `Chamados` table.  `dataCriacao` / `dataAtualizacao` are
abstract clock readings. -/
structure Row where
  id : Int
  usuariosId : JsVal
  texto : JsVal
  estado : JsVal
  urlImagem : JsVal
  dataCriacao : Nat
  dataAtualizacao : Nat
deriving DecidableEq, Repr

/-- Store state: current rows, the `SERIAL` counter for the next id, and the
value `NOW()` would produce. -/
structure Store where
  rows : List Row
  nextId : Int
  now : Nat
deriving DecidableEq, Repr

/-- `SELECT * FROM chamados WHERE id = $1`. -/
def Store.selectById (s : Store) (i : Int) : List Row :=
  s.rows.filter (fun r => r.id = i)

/-- `UPDATE ... SET <all four columns> WHERE id = $5` on one row. -/
def Row.replaceAll (r : Row) (u t e img : JsVal) : Row :=
  { r with usuariosId := u, texto := t, estado := e, urlImagem := img }

/-- `COALESCE(param, column)`: SQL NULL keeps the old column value. -/
def coalesce (p old : JsVal) : JsVal :=
  if p = .null then old else p

/-- `UPDATE ... SET col = COALESCE($i, col) ... WHERE id = $5` on one row. -/
def Row.coalesceAll (r : Row) (u t e img : JsVal) : Row :=
  { r with
    usuariosId := coalesce u r.usuariosId
    texto := coalesce t r.texto
    estado := coalesce e r.estado
    urlImagem := coalesce img r.urlImagem }

/-- `INSERT INTO chamados (...) VALUES ($1,$2,$3,$4) RETURNING *`:
the returned row and the new store state. -/
def Store.insert (s : Store) (u t e img : JsVal) : Row × Store :=
  let r : Row :=
    { id := s.nextId, usuariosId := u, texto := t, estado := e, urlImagem := img,
      dataCriacao := s.now, dataAtualizacao := s.now }
  (r, { s with rows := s.rows ++ [r], nextId := s.nextId + 1 })

/-- Full `UPDATE ... RETURNING *`: the rows returned and the new store. -/
def Store.update (s : Store) (u t e img : JsVal) (i : Int) : List Row × Store :=
  ((s.rows.filter (fun r => r.id = i)).map (fun r => r.replaceAll u t e img),
   { s with rows := s.rows.map (fun r => if r.id = i then r.replaceAll u t e img else r) })

/-- `COALESCE`-merging `UPDATE ... RETURNING *`. -/
def Store.updateCo (s : Store) (u t e img : JsVal) (i : Int) : List Row × Store :=
  ((s.rows.filter (fun r => r.id = i)).map (fun r => r.coalesceAll u t e img),
   { s with rows := s.rows.map (fun r => if r.id = i then r.coalesceAll u t e img else r) })

/-- `DELETE FROM chamados WHERE id = $1`: the affected-row count and the new
store. -/
def Store.deleteById (s : Store) (i : Int) : Nat × Store :=
  ((s.rows.filter (fun r => r.id = i)).length,
   { s with rows := s.rows.filter (fun r => ¬ r.id = i) })

/-! ### HTTP-level outcome -/

inductive RespBody where
  | row (r : Row)
  | rows (l : List Row)
  | erro (msg : String)
  | empty
deriving DecidableEq, Repr

structure Resp where
  status : Nat
  body : RespBody
deriving DecidableEq, Repr

/-- The SQL statements a handler can issue, with their parameter values. -/
inductive Query where
  | selectAll
  | selectById (i : Int)
  | insert (u t e img : JsVal)
  | update (u t e img : JsVal) (i : Int)
  | updateCo (u t e img : JsVal) (i : Int)
  | deleteById (i : Int)
deriving DecidableEq, Repr

/-- Result of running one handler: the HTTP response, the store state after
the request, and the SQL statements issued (in order). -/
structure HandlerOut where
  resp : Resp
  store : Store
  queries : List Query
deriving DecidableEq, Repr

/-- `Number(x)` where `x` may be `undefined` (an absent body field). -/
def jsToNumberO : JField → JsNum
  | none => .nan
  | some v => jsToNumber v

/-- `Number.isNaN(n)`. -/
def jsNumIsNaN : JsNum → Bool
  | .nan => true
  | _ => false

/-- `n < 1` under JavaScript comparison (false for NaN and `Infinity`). -/
def jsNumLt1 : JsNum → Bool
  | .fin q => q < 1
  | .ninf => true
  | _ => false

/-- `ORDER BY id DESC` (stable insertion sort, as the row order itself is
irrelevant to the claims). -/
def insertDesc (r : Row) : List Row → List Row
  | [] => [r]
  | x :: xs => if x.id ≤ r.id then r :: x :: xs else x :: insertDesc r xs

def sortByIdDesc : List Row → List Row
  | [] => []
  | x :: xs => insertDesc x (sortByIdDesc xs)

/-- The uniform 500 body of the `server.js` and routes variants. -/
def internalMsg : String := "Erro interno no servidor"

/-! ## Variant `SJ`: `src/src/server.js` -/

namespace SJ

def idMsg : String := "ID inválido"
def notFoundMsg : String := "Chamado não encontrado"
def createMsg : String :=
  "Campos Usuarios_id (inteiro > 0), texto (string) e estado (string) são obrigatórios."
def putMsg : String :=
  "Corpo da requisição incompleto. Todos os campos são obrigatórios para substituição (PUT)."
def patchEmptyMsg : String := "É necessário enviar ao menos um campo para atualizar."
def patchUidMsg : String := "Campo Usuarios_id deve ser um inteiro positivo."

/-- `GET /api/chamados` (lines 75–84). -/
def getAll (db : Option String) (s : Store) : HandlerOut :=
  match db with
  | some _ => ⟨⟨500, .erro internalMsg⟩, s, [.selectAll]⟩
  | none => ⟨⟨200, .rows (sortByIdDesc s.rows)⟩, s, [.selectAll]⟩

/-- `GET /api/chamados/:id` (lines 91–115). -/
def getById (idStr : String) (db : Option String) (s : Store) : HandlerOut :=
  match parseId idStr with
  | none => ⟨⟨400, .erro idMsg⟩, s, []⟩
  | some i =>
    match db with
    | some _ => ⟨⟨500, .erro internalMsg⟩, s, [.selectById i]⟩
    | none =>
      match s.selectById i with
      | [] => ⟨⟨404, .erro notFoundMsg⟩, s, [.selectById i]⟩
      | r :: _ => ⟨⟨200, .row r⟩, s, [.selectById i]⟩

/-- The body check of `POST /api/chamados` (lines 127–133):
`!Usuarios_id || !Number.isInteger(Usuarios_id) || Usuarios_id <= 0 ||
 !texto || typeof texto !== "string" || !estado || typeof estado !== "string"`
rejects; this is its negation. -/
def createValid (b : Body) : Bool :=
  fTruthy b.Usuarios_id && fIsInteger b.Usuarios_id && !fLeZero b.Usuarios_id &&
  fTruthy b.texto && fIsString b.texto &&
  fTruthy b.estado && fIsString b.estado

/-- `POST /api/chamados` (lines 122–148); `urlImagem` is passed through to the
driver even when `undefined`, which `pg` serializes as NULL. -/
def create (b : Body) (db : Option String) (s : Store) : HandlerOut :=
  if createValid b then
    let q := Query.insert (fOrNull b.Usuarios_id) (fOrNull b.texto)
      (fOrNull b.estado) (fOrNull b.urlImagem)
    match db with
    | some _ => ⟨⟨500, .erro internalMsg⟩, s, [q]⟩
    | none =>
      let rs := s.insert (fOrNull b.Usuarios_id) (fOrNull b.texto)
        (fOrNull b.estado) (fOrNull b.urlImagem)
      ⟨⟨201, .row rs.1⟩, rs.2, [q]⟩
  else ⟨⟨400, .erro createMsg⟩, s, []⟩

/-- The body check of `PUT /api/chamados/:id` (lines 165–172): the create
check plus `urlImagem === undefined` rejection (explicit `null` allowed). -/
def putValid (b : Body) : Bool :=
  createValid b && b.urlImagem.isSome

/-- `PUT /api/chamados/:id` (lines 155–193). -/
def put (idStr : String) (b : Body) (db : Option String) (s : Store) : HandlerOut :=
  match parseId idStr with
  | none => ⟨⟨400, .erro idMsg⟩, s, []⟩
  | some i =>
    if putValid b then
      let q := Query.update (fOrNull b.Usuarios_id) (fOrNull b.texto)
        (fOrNull b.estado) (fOrNull b.urlImagem) i
      match db with
      | some _ => ⟨⟨500, .erro internalMsg⟩, s, [q]⟩
      | none =>
        let rs := s.update (fOrNull b.Usuarios_id) (fOrNull b.texto)
          (fOrNull b.estado) (fOrNull b.urlImagem) i
        match rs.1 with
        | [] => ⟨⟨404, .erro notFoundMsg⟩, rs.2, [q]⟩
        | r :: _ => ⟨⟨200, .row r⟩, rs.2, [q]⟩
    else ⟨⟨400, .erro putMsg⟩, s, []⟩

/-- `PATCH /api/chamados/:id` (lines 201–243). -/
def patch (idStr : String) (b : Body) (db : Option String) (s : Store) : HandlerOut :=
  match parseId idStr with
  | none => ⟨⟨400, .erro idMsg⟩, s, []⟩
  | some i =>
    if b.keyCount = 0 then ⟨⟨400, .erro patchEmptyMsg⟩, s, []⟩
    else if b.Usuarios_id.isSome && !(fIsInteger b.Usuarios_id && !fLeZero b.Usuarios_id) then
      ⟨⟨400, .erro patchUidMsg⟩, s, []⟩
    else
      let q := Query.updateCo (fOrNull b.Usuarios_id) (fOrNull b.texto)
        (fOrNull b.estado) (fOrNull b.urlImagem) i
      match db with
      | some _ => ⟨⟨500, .erro internalMsg⟩, s, [q]⟩
      | none =>
        let rs := s.updateCo (fOrNull b.Usuarios_id) (fOrNull b.texto)
          (fOrNull b.estado) (fOrNull b.urlImagem) i
        match rs.1 with
        | [] => ⟨⟨404, .erro notFoundMsg⟩, rs.2, [q]⟩
        | r :: _ => ⟨⟨200, .row r⟩, rs.2, [q]⟩

/-- `DELETE /api/chamados/:id` (lines 250–272). -/
def del (idStr : String) (db : Option String) (s : Store) : HandlerOut :=
  match parseId idStr with
  | none => ⟨⟨400, .erro idMsg⟩, s, []⟩
  | some i =>
    match db with
    | some _ => ⟨⟨500, .erro internalMsg⟩, s, [.deleteById i]⟩
    | none =>
      let rs := s.deleteById i
      if rs.1 = 0 then ⟨⟨404, .erro notFoundMsg⟩, rs.2, [.deleteById i]⟩
      else ⟨⟨204, .empty⟩, rs.2, [.deleteById i]⟩

end SJ

/-! ## Variant `P1`: `src/unnamed/part_001` (second `server.js` revision) -/

namespace P1

def idMsg : String := "id inválido"
def notFoundMsg : String := "não encontrado"
def internalMsgP : String := "erro interno"
def createMsg : String :=
  "Texto, estado, urlImagem precisam ser strings não vazias. Usuarios_id precisa ser um número inteiro > 0."
def patchEmptyMsg : String := "É necessário enviar ao menos um campo para atualizar."
def patchUidMsg : String := "Usuarios_id deve ser um inteiro > 0."

/-- `GET /api/chamados` (lines 70–78). -/
def getAll (db : Option String) (s : Store) : HandlerOut :=
  match db with
  | some _ => ⟨⟨500, .erro internalMsgP⟩, s, [.selectAll]⟩
  | none => ⟨⟨200, .rows (sortByIdDesc s.rows)⟩, s, [.selectAll]⟩

/-- `GET /api/chamados/:id` (lines 85–107): `!rows[0]` plays the role of the
empty-result test. -/
def getById (idStr : String) (db : Option String) (s : Store) : HandlerOut :=
  match parseId idStr with
  | none => ⟨⟨400, .erro idMsg⟩, s, []⟩
  | some i =>
    match db with
    | some _ => ⟨⟨500, .erro internalMsgP⟩, s, [.selectById i]⟩
    | none =>
      match s.selectById i with
      | [] => ⟨⟨404, .erro notFoundMsg⟩, s, [.selectById i]⟩
      | r :: _ => ⟨⟨200, .row r⟩, s, [.selectById i]⟩

/-- The `Usuarios_id` acceptance of this variant (lines 120, 126):
`Usuarios_id == null || Number.isNaN(Number(Usuarios_id)) ||
 Number(Usuarios_id) < 1` rejects; this is its negation.  Note that any value
whose `Number(...)` conversion is at least 1 is accepted — including
fractional numbers, numeric strings and `true`. -/
def uidOk (x : JField) : Bool :=
  !fLooseNull x && !jsNumIsNaN (jsToNumberO x) && !jsNumLt1 (jsToNumberO x)

/-- The body check of `POST /api/chamados` (lines 123–127): unlike the other
two variants, `urlImagem` is required to be a truthy string. -/
def createValid (b : Body) : Bool :=
  fTruthy b.texto && fIsString b.texto &&
  fTruthy b.estado && fIsString b.estado &&
  fTruthy b.urlImagem && fIsString b.urlImagem &&
  uidOk b.Usuarios_id

/-- `POST /api/chamados` (lines 118–143); the raw `Usuarios_id` value is the
query parameter (not `Number(Usuarios_id)`). -/
def create (b : Body) (db : Option String) (s : Store) : HandlerOut :=
  if createValid b then
    let q := Query.insert (fOrNull b.Usuarios_id) (fOrNull b.texto)
      (fOrNull b.estado) (fOrNull b.urlImagem)
    match db with
    | some _ => ⟨⟨500, .erro internalMsgP⟩, s, [q]⟩
    | none =>
      let rs := s.insert (fOrNull b.Usuarios_id) (fOrNull b.texto)
        (fOrNull b.estado) (fOrNull b.urlImagem)
      ⟨⟨201, .row rs.1⟩, rs.2, [q]⟩
  else ⟨⟨400, .erro createMsg⟩, s, []⟩

/-- `PUT /api/chamados/:id` (lines 150–187): the body check is identical to
this variant's create check. -/
def put (idStr : String) (b : Body) (db : Option String) (s : Store) : HandlerOut :=
  match parseId idStr with
  | none => ⟨⟨400, .erro idMsg⟩, s, []⟩
  | some i =>
    if createValid b then
      let q := Query.update (fOrNull b.Usuarios_id) (fOrNull b.texto)
        (fOrNull b.estado) (fOrNull b.urlImagem) i
      match db with
      | some _ => ⟨⟨500, .erro internalMsgP⟩, s, [q]⟩
      | none =>
        let rs := s.update (fOrNull b.Usuarios_id) (fOrNull b.texto)
          (fOrNull b.estado) (fOrNull b.urlImagem) i
        match rs.1 with
        | [] => ⟨⟨404, .erro notFoundMsg⟩, rs.2, [q]⟩
        | r :: _ => ⟨⟨200, .row r⟩, rs.2, [q]⟩
    else ⟨⟨400, .erro createMsg⟩, s, []⟩

/-- `PATCH /api/chamados/:id` (lines 197–242): the empty-body test checks the
four destructured fields (not `Object.keys`), and a supplied `Usuarios_id` is
checked via `Number(...)` as in this variant's create. -/
def patch (idStr : String) (b : Body) (db : Option String) (s : Store) : HandlerOut :=
  match parseId idStr with
  | none => ⟨⟨400, .erro idMsg⟩, s, []⟩
  | some i =>
    if b.Usuarios_id = none ∧ b.texto = none ∧ b.estado = none ∧ b.urlImagem = none then
      ⟨⟨400, .erro patchEmptyMsg⟩, s, []⟩
    else if b.Usuarios_id.isSome &&
        (jsNumIsNaN (jsToNumberO b.Usuarios_id) || jsNumLt1 (jsToNumberO b.Usuarios_id)) then
      ⟨⟨400, .erro patchUidMsg⟩, s, []⟩
    else
      let q := Query.updateCo (fOrNull b.Usuarios_id) (fOrNull b.texto)
        (fOrNull b.estado) (fOrNull b.urlImagem) i
      match db with
      | some _ => ⟨⟨500, .erro internalMsgP⟩, s, [q]⟩
      | none =>
        let rs := s.updateCo (fOrNull b.Usuarios_id) (fOrNull b.texto)
          (fOrNull b.estado) (fOrNull b.urlImagem) i
        match rs.1 with
        | [] => ⟨⟨404, .erro notFoundMsg⟩, rs.2, [q]⟩
        | r :: _ => ⟨⟨200, .row r⟩, rs.2, [q]⟩

/-- `DELETE /api/chamados/:id` (lines 249–267). -/
def del (idStr : String) (db : Option String) (s : Store) : HandlerOut :=
  match parseId idStr with
  | none => ⟨⟨400, .erro idMsg⟩, s, []⟩
  | some i =>
    match db with
    | some _ => ⟨⟨500, .erro internalMsgP⟩, s, [.deleteById i]⟩
    | none =>
      let rs := s.deleteById i
      if rs.1 = 0 then ⟨⟨404, .erro notFoundMsg⟩, rs.2, [.deleteById i]⟩
      else ⟨⟨204, .empty⟩, rs.2, [.deleteById i]⟩

end P1

/-! ## Variant `RT`: `src/unnamed/part_002` (`chamados.routes.js`)

The handler logic is line-for-line that of `src/src/server.js` with the
optional-image column named `url_imagem`; the `Body.urlImagem` field stands
for it here. -/

namespace RT

/-- `GET /api/chamados` (lines 25–33). -/
def getAll (db : Option String) (s : Store) : HandlerOut :=
  match db with
  | some _ => ⟨⟨500, .erro internalMsg⟩, s, [.selectAll]⟩
  | none => ⟨⟨200, .rows (sortByIdDesc s.rows)⟩, s, [.selectAll]⟩

/-- `GET /api/chamados/:id` (lines 36–55). -/
def getById (idStr : String) (db : Option String) (s : Store) : HandlerOut :=
  match parseId idStr with
  | none => ⟨⟨400, .erro SJ.idMsg⟩, s, []⟩
  | some i =>
    match db with
    | some _ => ⟨⟨500, .erro internalMsg⟩, s, [.selectById i]⟩
    | none =>
      match s.selectById i with
      | [] => ⟨⟨404, .erro SJ.notFoundMsg⟩, s, [.selectById i]⟩
      | r :: _ => ⟨⟨200, .row r⟩, s, [.selectById i]⟩

/-- The body check of `POST /` (lines 61–67), identical to `SJ.createValid`. -/
def createValid (b : Body) : Bool :=
  fTruthy b.Usuarios_id && fIsInteger b.Usuarios_id && !fLeZero b.Usuarios_id &&
  fTruthy b.texto && fIsString b.texto &&
  fTruthy b.estado && fIsString b.estado

/-- `POST /` (lines 58–84). -/
def create (b : Body) (db : Option String) (s : Store) : HandlerOut :=
  if createValid b then
    let q := Query.insert (fOrNull b.Usuarios_id) (fOrNull b.texto)
      (fOrNull b.estado) (fOrNull b.urlImagem)
    match db with
    | some _ => ⟨⟨500, .erro internalMsg⟩, s, [q]⟩
    | none =>
      let rs := s.insert (fOrNull b.Usuarios_id) (fOrNull b.texto)
        (fOrNull b.estado) (fOrNull b.urlImagem)
      ⟨⟨201, .row rs.1⟩, rs.2, [q]⟩
  else ⟨⟨400, .erro SJ.createMsg⟩, s, []⟩

/-- Body check of `PUT /:id` (lines 95–102): create check plus
`url_imagem === undefined` rejection. -/
def putValid (b : Body) : Bool :=
  createValid b && b.urlImagem.isSome

/-- `PUT /:id` (lines 87–125). -/
def put (idStr : String) (b : Body) (db : Option String) (s : Store) : HandlerOut :=
  match parseId idStr with
  | none => ⟨⟨400, .erro SJ.idMsg⟩, s, []⟩
  | some i =>
    if putValid b then
      let q := Query.update (fOrNull b.Usuarios_id) (fOrNull b.texto)
        (fOrNull b.estado) (fOrNull b.urlImagem) i
      match db with
      | some _ => ⟨⟨500, .erro internalMsg⟩, s, [q]⟩
      | none =>
        let rs := s.update (fOrNull b.Usuarios_id) (fOrNull b.texto)
          (fOrNull b.estado) (fOrNull b.urlImagem) i
        match rs.1 with
        | [] => ⟨⟨404, .erro SJ.notFoundMsg⟩, rs.2, [q]⟩
        | r :: _ => ⟨⟨200, .row r⟩, rs.2, [q]⟩
    else ⟨⟨400, .erro SJ.putMsg⟩, s, []⟩

/-- `PATCH /:id` (lines 128–165). -/
def patch (idStr : String) (b : Body) (db : Option String) (s : Store) : HandlerOut :=
  match parseId idStr with
  | none => ⟨⟨400, .erro SJ.idMsg⟩, s, []⟩
  | some i =>
    if b.keyCount = 0 then ⟨⟨400, .erro SJ.patchEmptyMsg⟩, s, []⟩
    else if b.Usuarios_id.isSome && !(fIsInteger b.Usuarios_id && !fLeZero b.Usuarios_id) then
      ⟨⟨400, .erro SJ.patchUidMsg⟩, s, []⟩
    else
      let q := Query.updateCo (fOrNull b.Usuarios_id) (fOrNull b.texto)
        (fOrNull b.estado) (fOrNull b.urlImagem) i
      match db with
      | some _ => ⟨⟨500, .erro internalMsg⟩, s, [q]⟩
      | none =>
        let rs := s.updateCo (fOrNull b.Usuarios_id) (fOrNull b.texto)
          (fOrNull b.estado) (fOrNull b.urlImagem) i
        match rs.1 with
        | [] => ⟨⟨404, .erro SJ.notFoundMsg⟩, rs.2, [q]⟩
        | r :: _ => ⟨⟨200, .row r⟩, rs.2, [q]⟩

/-- `DELETE /:id` (lines 168–187). -/
def del (idStr : String) (db : Option String) (s : Store) : HandlerOut :=
  match parseId idStr with
  | none => ⟨⟨400, .erro SJ.idMsg⟩, s, []⟩
  | some i =>
    match db with
    | some _ => ⟨⟨500, .erro internalMsg⟩, s, [.deleteById i]⟩
    | none =>
      let rs := s.deleteById i
      if rs.1 = 0 then ⟨⟨404, .erro SJ.notFoundMsg⟩, rs.2, [.deleteById i]⟩
      else ⟨⟨204, .empty⟩, rs.2, [.deleteById i]⟩

end RT

/-! ## Spec-level predicates and row transformers

These are phrased from the specification's wording ("positive integer",
"non-empty string", "absent-or-null input value leaves the column
unchanged", "overwrites every field"), to be related to the handlers'
own checks. -/

/-- Spec: the field is supplied and is a positive integer. -/
def isPosIntF : JField → Bool
  | some (.num q) => q.den = 1 && 0 < q
  | _ => false

/-- Spec: the field is supplied and is a non-empty string. -/
def isNonemptyStrF : JField → Bool
  | some (.str s) => s ≠ ""
  | _ => false

/-- Spec (claim C1): some required create field is missing, empty or of the
wrong type — that is, `owner_user_id` is not a supplied positive integer, or
`text` or `state` is not a supplied non-empty string. -/
def requiredBad (b : Body) : Prop :=
  isPosIntF b.Usuarios_id = false ∨ isNonemptyStrF b.texto = false ∨
  isNonemptyStrF b.estado = false

instance (b : Body) : Decidable (requiredBad b) := by
  unfold requiredBad; infer_instance

/-- Spec (claim C2): a malformed id string — non-numeric (`Number` gives
NaN), or numeric but zero, negative or fractional. -/
def malformedIdStr (s : String) : Prop :=
  jsNumber s = .nan ∨ ∃ q : ℚ, jsNumber s = .fin q ∧ (q ≤ 0 ∨ q.den ≠ 1)

/-- Spec merge semantics: "absent-or-null input value leaves the column
unchanged". -/
def specMergeVal (old : JsVal) : JField → JsVal
  | none => old
  | some .null => old
  | some v => v

/-- The merged row a partial update is specified to produce: each supplied
non-null field overwritten, everything else (including id and timestamps)
retained. -/
def mergeSpec (r : Row) (b : Body) : Row :=
  { r with
    usuariosId := specMergeVal r.usuariosId b.Usuarios_id
    texto := specMergeVal r.texto b.texto
    estado := specMergeVal r.estado b.estado
    urlImagem := specMergeVal r.urlImagem b.urlImagem }

/-- The row a full replace is specified to produce: every field overwritten
with the supplied value, id and timestamps retained. -/
def replaceSpec (r : Row) (b : Body) : Row :=
  { r with
    usuariosId := fOrNull b.Usuarios_id
    texto := fOrNull b.texto
    estado := fOrNull b.estado
    urlImagem := fOrNull b.urlImagem }

/-- How many of the four updatable fields the body supplies. -/
def suppliedFields (b : Body) : Nat :=
  (if b.Usuarios_id.isSome then 1 else 0) + (if b.texto.isSome then 1 else 0) +
  (if b.estado.isSome then 1 else 0) + (if b.urlImagem.isSome then 1 else 0)

/-! ### Bridge lemmas between the handlers' checks and the spec predicates -/

theorem posInt_decomp (x : JField) :
    (fTruthy x && fIsInteger x && !fLeZero x) = isPosIntF x := by
  rcases x with _ | v
  · rfl
  rcases v with _ | b | q | s
  · rfl
  · cases b <;> rfl
  · simp only [fTruthy, fIsInteger, fLeZero, isPosIntF, jsTruthy]
    by_cases hp : (0 : ℚ) < q
    · simp [hp, hp.ne', not_le.mpr hp]
    · have h0 : q ≤ 0 := le_of_not_lt hp
      by_cases hz : q = 0
      · simp [hz]
      · simp [hp, hz, h0]
  · simp [fTruthy, fIsInteger, fLeZero, isPosIntF, jsTruthy]

theorem nonemptyStr_decomp (x : JField) :
    (fTruthy x && fIsString x) = isNonemptyStrF x := by
  rcases x with _ | v
  · rfl
  rcases v with _ | b | q | s
  · rfl
  · cases b <;> rfl
  · simp [fTruthy, fIsString, isNonemptyStrF, jsTruthy]
  · simp [fTruthy, fIsString, isNonemptyStrF, jsTruthy]

theorem sj_createValid_decomp (b : Body) :
    SJ.createValid b =
      (isPosIntF b.Usuarios_id && isNonemptyStrF b.texto && isNonemptyStrF b.estado) := by
  unfold SJ.createValid
  rw [← posInt_decomp, ← nonemptyStr_decomp, ← nonemptyStr_decomp]
  simp [Bool.and_assoc]

theorem rt_createValid_decomp (b : Body) :
    RT.createValid b =
      (isPosIntF b.Usuarios_id && isNonemptyStrF b.texto && isNonemptyStrF b.estado) := by
  unfold RT.createValid
  rw [← posInt_decomp, ← nonemptyStr_decomp, ← nonemptyStr_decomp]
  simp [Bool.and_assoc]

theorem parseId_eq_none {s : String} (h : malformedIdStr s) : parseId s = none := by
  unfold parseId
  rcases h with h | ⟨q, hq, hc⟩
  · rw [h]
  · rw [hq]
    rcases hc with hc | hc <;> simp_all [not_lt_of_le]

theorem coalesce_fOrNull (old : JsVal) (f : JField) :
    coalesce (fOrNull f) old = specMergeVal old f := by
  rcases f with _ | v
  · rfl
  · cases v <;> rfl

theorem coalesceAll_merge (r : Row) (b : Body) :
    r.coalesceAll (fOrNull b.Usuarios_id) (fOrNull b.texto) (fOrNull b.estado)
      (fOrNull b.urlImagem) = mergeSpec r b := by
  unfold Row.coalesceAll mergeSpec
  rw [coalesce_fOrNull, coalesce_fOrNull, coalesce_fOrNull, coalesce_fOrNull]

theorem replaceAll_spec (r : Row) (b : Body) :
    r.replaceAll (fOrNull b.Usuarios_id) (fOrNull b.texto) (fOrNull b.estado)
      (fOrNull b.urlImagem) = replaceSpec r b := rfl

/-- A store whose unique row with id `i` is `r` admits no other row with that
id. -/
theorem selectById_unique {st : Store} {i : Int} {r : Row}
    (h : st.selectById i = [r]) : ∀ x ∈ st.rows, x.id = i → x = r := by
  intro x hx hxi
  have : x ∈ st.rows.filter (fun y => y.id = i) := by
    rw [List.mem_filter]
    exact ⟨hx, by simp [hxi]⟩
  rw [show st.rows.filter (fun y => y.id = i) = [r] from h] at this
  simpa using this

theorem selectById_mem {st : Store} {i : Int} {r : Row}
    (h : st.selectById i = [r]) : r ∈ st.rows ∧ r.id = i := by
  have : r ∈ st.rows.filter (fun y => y.id = i) := by rw [show st.rows.filter (fun y => y.id = i) = [r] from h]; simp
  rw [List.mem_filter] at this
  exact ⟨this.1, by simpa using this.2⟩

/-- If no row has id `i`, an UPDATE with `WHERE id = i` leaves the row list
unchanged. -/
theorem map_if_no_match {l : List Row} {i : Int} (g : Row → Row)
    (h : l.filter (fun y => y.id = i) = []) :
    l.map (fun x => if x.id = i then g x else x) = l := by
  rw [List.filter_eq_nil_iff] at h
  have : ∀ x ∈ l, (if x.id = i then g x else x) = x := by
    intro x hx
    have := h x hx
    simp only [decide_eq_true_eq] at this
    simp [this]
  calc l.map (fun x => if x.id = i then g x else x) = l.map id := List.map_congr_left this
    _ = l := List.map_id l

theorem p1_createValid_decomp (b : Body) :
    P1.createValid b =
      (isNonemptyStrF b.texto && isNonemptyStrF b.estado &&
       isNonemptyStrF b.urlImagem && P1.uidOk b.Usuarios_id) := by
  unfold P1.createValid
  rw [← nonemptyStr_decomp, ← nonemptyStr_decomp, ← nonemptyStr_decomp]
  simp [Bool.and_assoc]

/-! ## Concrete fixtures for witnesses and counterexamples -/

def demoRow : Row := ⟨1, .num 1, .str "Erro ao compilar", .str "a", .null, 10, 10⟩
def demoRow2 : Row := ⟨2, .num 3, .str "Link quebrado", .str "a", .str "img.png", 11, 11⟩
def demoStore : Store := ⟨[demoRow, demoRow2], 3, 42⟩
def demoBody : Body := ⟨some (.num 1), some (.str "t"), some (.str "a"), none, 0⟩

/-! ## Claim C1 -/

/-- **C1** (amended).  Create with a required field missing, empty or
wrong-typed returns a 400 validation error, issues no SQL statement and
leaves the store unchanged — as stated for the `server.js` and routes
variants; in the `part_001` variant the same holds for `texto` and `estado`
(and for its additionally required `urlImagem`), but a supplied
`Usuarios_id` is rejected only when `Number(Usuarios_id)` is NaN or below 1,
so non-positive-integer values such as `1.5` can pass its check. -/
theorem claim_C1 (b : Body) (db : Option String) (st : Store) (h : requiredBad b) :
    SJ.create b db st = ⟨⟨400, .erro SJ.createMsg⟩, st, []⟩ ∧
    RT.create b db st = ⟨⟨400, .erro SJ.createMsg⟩, st, []⟩ ∧
    ((isNonemptyStrF b.texto = false ∨ isNonemptyStrF b.estado = false ∨
      isNonemptyStrF b.urlImagem = false ∨ P1.uidOk b.Usuarios_id = false) →
      P1.create b db st = ⟨⟨400, .erro P1.createMsg⟩, st, []⟩) := by
  have hsj : SJ.createValid b = false := by
    rw [sj_createValid_decomp]
    rcases h with h | h | h <;> simp [h]
  have hrt : RT.createValid b = false := by
    rw [rt_createValid_decomp]
    rcases h with h | h | h <;> simp [h]
  refine ⟨by simp [SJ.create, hsj], by simp [RT.create, hrt], fun hp => ?_⟩
  have hp1 : P1.createValid b = false := by
    rw [p1_createValid_decomp]
    rcases hp with h | h | h | h <;> simp [h]
  simp [P1.create, hp1]

/-- The body `{Usuarios_id: "5", texto: "a", estado: "b", urlImagem: "u"}`,
whose `owner_user_id` is a string, hence of the wrong type. -/
def cexC1 : Body := ⟨some (.str "5"), some (.str "a"), some (.str "b"), some (.str "u"), 0⟩

/-- **C1** fails as stated on the `part_001` variant: a create body whose
`Usuarios_id` is the numeric string `"5"` is in the claim's bad set, yet
the handler answers 201 and issues the INSERT. -/
theorem claim_C1_counterexample :
    requiredBad cexC1 ∧
    (P1.create cexC1 none demoStore).resp.status = 201 ∧
    (P1.create cexC1 none demoStore).queries ≠ [] := by
  exact ⟨by decide, by decide, by decide⟩

/-- Witness for C1 at a body whose `texto` is missing. -/
theorem claim_C1_witness :
    SJ.create ⟨some (.num 1), none, some (.str "a"), none, 0⟩ none demoStore =
      ⟨⟨400, .erro SJ.createMsg⟩, demoStore, []⟩ :=
  (claim_C1 ⟨some (.num 1), none, some (.str "a"), none, 0⟩ none demoStore
    (by decide)).1

/-! ## Claim C2 -/

/-- **C2** (confirmed).  For every malformed id string — non-numeric, zero,
negative or fractional — each id-taking operation of each variant answers
400 `invalid-id`, issues no SQL statement, and leaves the store unchanged,
for any store state, any request body and any store health. -/
theorem claim_C2 (idStr : String) (h : malformedIdStr idStr) (db : Option String)
    (st : Store) (b : Body) :
    SJ.getById idStr db st = ⟨⟨400, .erro SJ.idMsg⟩, st, []⟩ ∧
    SJ.put idStr b db st = ⟨⟨400, .erro SJ.idMsg⟩, st, []⟩ ∧
    SJ.patch idStr b db st = ⟨⟨400, .erro SJ.idMsg⟩, st, []⟩ ∧
    SJ.del idStr db st = ⟨⟨400, .erro SJ.idMsg⟩, st, []⟩ ∧
    P1.getById idStr db st = ⟨⟨400, .erro P1.idMsg⟩, st, []⟩ ∧
    P1.put idStr b db st = ⟨⟨400, .erro P1.idMsg⟩, st, []⟩ ∧
    P1.patch idStr b db st = ⟨⟨400, .erro P1.idMsg⟩, st, []⟩ ∧
    P1.del idStr db st = ⟨⟨400, .erro P1.idMsg⟩, st, []⟩ ∧
    RT.getById idStr db st = ⟨⟨400, .erro SJ.idMsg⟩, st, []⟩ ∧
    RT.put idStr b db st = ⟨⟨400, .erro SJ.idMsg⟩, st, []⟩ ∧
    RT.patch idStr b db st = ⟨⟨400, .erro SJ.idMsg⟩, st, []⟩ ∧
    RT.del idStr db st = ⟨⟨400, .erro SJ.idMsg⟩, st, []⟩ := by
  have hp : parseId idStr = none := parseId_eq_none h
  exact ⟨by simp [SJ.getById, hp], by simp [SJ.put, hp], by simp [SJ.patch, hp],
    by simp [SJ.del, hp], by simp [P1.getById, hp], by simp [P1.put, hp],
    by simp [P1.patch, hp], by simp [P1.del, hp], by simp [RT.getById, hp],
    by simp [RT.put, hp], by simp [RT.patch, hp], by simp [RT.del, hp]⟩

/-- Witness for C2 at the non-numeric id string `"abc"`. -/
theorem claim_C2_witness :
    SJ.getById "abc" none demoStore = ⟨⟨400, .erro SJ.idMsg⟩, demoStore, []⟩ ∧
    SJ.del "abc" none demoStore = ⟨⟨400, .erro SJ.idMsg⟩, demoStore, []⟩ :=
  ⟨(claim_C2 "abc" (Or.inl (by decide)) none demoStore demoBody).1,
   (claim_C2 "abc" (Or.inl (by decide)) none demoStore demoBody).2.2.2.1⟩

/-! ## Claim C3 -/

theorem posIntF_parts {x : JField} (h : isPosIntF x = true) :
    fTruthy x = true ∧ fIsInteger x = true ∧ fLeZero x = false := by
  rw [← posInt_decomp] at h
  simp only [Bool.and_eq_true, Bool.not_eq_true'] at h
  exact ⟨h.1.1, h.1.2, h.2⟩

theorem keyCount_split (b : Body) : b.keyCount = suppliedFields b + b.otherKeys := rfl

/-- **C3** (confirmed).  For an existing ticket and a partial-update body
supplying exactly one field (valid if it is `Usuarios_id`), both the
`server.js` and routes variants answer 200 with exactly the merged row —
every absent-or-null field keeps its stored value, including id and both
timestamps — and the store changes only at that row, via the single
COALESCE update statement. -/
theorem claim_C3 (idStr : String) (i : Int) (hid : parseId idStr = some i)
    (st : Store) (r : Row) (hr : st.selectById i = [r]) (b : Body)
    (hone : suppliedFields b = 1)
    (hu : b.Usuarios_id.isSome = true → isPosIntF b.Usuarios_id = true) :
    SJ.patch idStr b none st =
      ⟨⟨200, .row (mergeSpec r b)⟩,
       { st with rows := st.rows.map (fun x => if x.id = i then mergeSpec r b else x) },
       [.updateCo (fOrNull b.Usuarios_id) (fOrNull b.texto) (fOrNull b.estado)
          (fOrNull b.urlImagem) i]⟩ ∧
    RT.patch idStr b none st =
      ⟨⟨200, .row (mergeSpec r b)⟩,
       { st with rows := st.rows.map (fun x => if x.id = i then mergeSpec r b else x) },
       [.updateCo (fOrNull b.Usuarios_id) (fOrNull b.texto) (fOrNull b.estado)
          (fOrNull b.urlImagem) i]⟩ := by
  have hk : ¬ b.keyCount = 0 := by rw [keyCount_split, hone]; omega
  have hu2 : ¬(b.Usuarios_id.isSome = true ∧
      (fIsInteger b.Usuarios_id = false ∨ fLeZero b.Usuarios_id = true)) := by
    cases hs : b.Usuarios_id.isSome
    · simp
    · have h3 := posIntF_parts (hu hs)
      simp [h3.2.1, h3.2.2]
  have hfil : st.rows.filter (fun x => x.id = i) = [r] := hr
  have hcong : st.rows.map (fun x => if x.id = i then mergeSpec x b else x) =
      st.rows.map (fun x => if x.id = i then mergeSpec r b else x) := by
    apply List.map_congr_left
    intro x hx
    by_cases hxi : x.id = i
    · rw [if_pos hxi, if_pos hxi, selectById_unique hr x hx hxi]
    · rw [if_neg hxi, if_neg hxi]
  constructor <;>
    simp [SJ.patch, RT.patch, hid, hk, hu2, Store.updateCo, hfil, coalesceAll_merge, hcong]

/-- The body `{estado: "f"}`, supplying exactly one field. -/
def patchBody1 : Body := ⟨none, none, some (.str "f"), none, 0⟩

/-- Witness for C3: patching only `estado` to `"f"` on the stored demo row. -/
theorem claim_C3_witness :
    SJ.patch "1" patchBody1 none demoStore =
      ⟨⟨200, .row (mergeSpec demoRow patchBody1)⟩,
       ⟨demoStore.rows.map (fun x => if x.id = 1 then mergeSpec demoRow patchBody1 else x),
        demoStore.nextId, demoStore.now⟩,
       [.updateCo .null .null (.str "f") .null 1]⟩ :=
  (claim_C3 "1" 1 (by decide) demoStore demoRow (by decide)
    patchBody1 (by decide) (by decide)).1

/-! ## Claim C4 -/

/-- Spec (C4): a complete replace body for the `server.js` / routes variants:
the Create-required fields valid, `urlImagem` key present (null allowed). -/
def completeBodySJ (b : Body) : Prop :=
  isPosIntF b.Usuarios_id = true ∧ isNonemptyStrF b.texto = true ∧
  isNonemptyStrF b.estado = true ∧ b.urlImagem.isSome = true

/-- Spec (C4): a complete replace body for the `part_001` variant, whose
Create also requires `urlImagem` to be a non-empty string. -/
def completeBodyP1 (b : Body) : Prop :=
  isPosIntF b.Usuarios_id = true ∧ isNonemptyStrF b.texto = true ∧
  isNonemptyStrF b.estado = true ∧ isNonemptyStrF b.urlImagem = true

instance (b : Body) : Decidable (completeBodySJ b) := by
  unfold completeBodySJ; infer_instance

instance (b : Body) : Decidable (completeBodyP1 b) := by
  unfold completeBodyP1; infer_instance

/-- A supplied positive-integer `Usuarios_id` passes the `part_001`
`Number(...)`-based check. -/
theorem posIntF_uidOk {x : JField} (h : isPosIntF x = true) : P1.uidOk x = true := by
  rcases x with _ | v
  · simp [isPosIntF] at h
  rcases v with _ | bb | q | s <;> simp [isPosIntF] at h
  obtain ⟨hd, hp⟩ := h
  have hq : (q.num : ℚ) = q := (Rat.den_eq_one_iff q).mp hd
  have h1 : (0 : ℤ) < q.num := Rat.num_pos.mpr hp
  have h3 : (1 : ℚ) ≤ (q.num : ℚ) := by exact_mod_cast h1
  rw [hq] at h3
  simp [P1.uidOk, fLooseNull, jsToNumberO, jsToNumber, jsNumIsNaN, jsNumLt1, not_lt.mpr h3]

/-- **C4** (confirmed).  Replace rejects, with a 400 validation error and no
SQL statement, any body missing one of the Create-required fields, in all
three variants; given a well-formed id and a complete body it answers 404
when no row has that id (store untouched), and otherwise overwrites every
field of that row with the supplied values and returns the updated row. -/
theorem claim_C4 (idStr : String) (i : Int) (hid : parseId idStr = some i)
    (b : Body) (st : Store) :
    ((b.Usuarios_id = none ∨ b.texto = none ∨ b.estado = none) → ∀ db,
      SJ.put idStr b db st = ⟨⟨400, .erro SJ.putMsg⟩, st, []⟩ ∧
      RT.put idStr b db st = ⟨⟨400, .erro SJ.putMsg⟩, st, []⟩ ∧
      P1.put idStr b db st = ⟨⟨400, .erro P1.createMsg⟩, st, []⟩) ∧
    (completeBodySJ b →
      (st.selectById i = [] →
        SJ.put idStr b none st = ⟨⟨404, .erro SJ.notFoundMsg⟩, st,
          [.update (fOrNull b.Usuarios_id) (fOrNull b.texto) (fOrNull b.estado)
            (fOrNull b.urlImagem) i]⟩ ∧
        RT.put idStr b none st = ⟨⟨404, .erro SJ.notFoundMsg⟩, st,
          [.update (fOrNull b.Usuarios_id) (fOrNull b.texto) (fOrNull b.estado)
            (fOrNull b.urlImagem) i]⟩) ∧
      (∀ r, st.selectById i = [r] →
        SJ.put idStr b none st = ⟨⟨200, .row (replaceSpec r b)⟩,
          { st with rows := st.rows.map (fun x => if x.id = i then replaceSpec r b else x) },
          [.update (fOrNull b.Usuarios_id) (fOrNull b.texto) (fOrNull b.estado)
            (fOrNull b.urlImagem) i]⟩ ∧
        RT.put idStr b none st = ⟨⟨200, .row (replaceSpec r b)⟩,
          { st with rows := st.rows.map (fun x => if x.id = i then replaceSpec r b else x) },
          [.update (fOrNull b.Usuarios_id) (fOrNull b.texto) (fOrNull b.estado)
            (fOrNull b.urlImagem) i]⟩)) ∧
    (completeBodyP1 b →
      (st.selectById i = [] →
        P1.put idStr b none st = ⟨⟨404, .erro P1.notFoundMsg⟩, st,
          [.update (fOrNull b.Usuarios_id) (fOrNull b.texto) (fOrNull b.estado)
            (fOrNull b.urlImagem) i]⟩) ∧
      (∀ r, st.selectById i = [r] →
        P1.put idStr b none st = ⟨⟨200, .row (replaceSpec r b)⟩,
          { st with rows := st.rows.map (fun x => if x.id = i then replaceSpec r b else x) },
          [.update (fOrNull b.Usuarios_id) (fOrNull b.texto) (fOrNull b.estado)
            (fOrNull b.urlImagem) i]⟩)) := by
  refine ⟨fun hmiss db => ?_, fun hc => ?_, fun hc => ?_⟩
  · have hsj : SJ.putValid b = false := by
      unfold SJ.putValid
      rw [sj_createValid_decomp]
      rcases hmiss with h | h | h <;> simp [h, isPosIntF, isNonemptyStrF]
    have hrt : RT.putValid b = false := by
      unfold RT.putValid
      rw [rt_createValid_decomp]
      rcases hmiss with h | h | h <;> simp [h, isPosIntF, isNonemptyStrF]
    have hp1 : P1.createValid b = false := by
      rw [p1_createValid_decomp]
      rcases hmiss with h | h | h <;>
        simp [h, isNonemptyStrF, P1.uidOk, fLooseNull]
    exact ⟨by simp [SJ.put, hid, hsj], by simp [RT.put, hid, hrt],
      by simp [P1.put, hid, hp1]⟩
  · obtain ⟨h1, h2, h3, h4⟩ := hc
    have hval : SJ.putValid b = true := by
      unfold SJ.putValid
      rw [sj_createValid_decomp]
      simp [h1, h2, h3, h4]
    have hvalr : RT.putValid b = true := by
      unfold RT.putValid
      rw [rt_createValid_decomp]
      simp [h1, h2, h3, h4]
    refine ⟨fun hnone => ?_, fun r hr => ?_⟩
    · have hmap : st.rows.map (fun x => if x.id = i then replaceSpec x b else x) = st.rows :=
        map_if_no_match (fun x => replaceSpec x b) hnone
      have hfil : st.rows.filter (fun x => x.id = i) = [] := hnone
      constructor <;>
        simp [SJ.put, RT.put, hid, hval, hvalr, Store.update, hfil, hmap, replaceAll_spec]
    · have hfil : st.rows.filter (fun x => x.id = i) = [r] := hr
      have hcong : st.rows.map (fun x => if x.id = i then replaceSpec x b else x) =
          st.rows.map (fun x => if x.id = i then replaceSpec r b else x) := by
        apply List.map_congr_left
        intro x hx
        by_cases hxi : x.id = i
        · rw [if_pos hxi, if_pos hxi, selectById_unique hr x hx hxi]
        · rw [if_neg hxi, if_neg hxi]
      constructor <;>
        simp [SJ.put, RT.put, hid, hval, hvalr, Store.update, hfil, replaceAll_spec, hcong]
  · obtain ⟨h1, h2, h3, h4⟩ := hc
    have hval : P1.createValid b = true := by
      rw [p1_createValid_decomp]
      simp [h2, h3, h4, posIntF_uidOk h1]
    refine ⟨fun hnone => ?_, fun r hr => ?_⟩
    · have hmap : st.rows.map (fun x => if x.id = i then replaceSpec x b else x) = st.rows :=
        map_if_no_match (fun x => replaceSpec x b) hnone
      have hfil : st.rows.filter (fun x => x.id = i) = [] := hnone
      simp [P1.put, hid, hval, Store.update, hfil, hmap, replaceAll_spec]
    · have hfil : st.rows.filter (fun x => x.id = i) = [r] := hr
      have hcong : st.rows.map (fun x => if x.id = i then replaceSpec x b else x) =
          st.rows.map (fun x => if x.id = i then replaceSpec r b else x) := by
        apply List.map_congr_left
        intro x hx
        by_cases hxi : x.id = i
        · rw [if_pos hxi, if_pos hxi, selectById_unique hr x hx hxi]
        · rw [if_neg hxi, if_neg hxi]
      simp [P1.put, hid, hval, Store.update, hfil, replaceAll_spec, hcong]

/-- The complete replace body `{Usuarios_id: 2, texto: "novo", estado: "f",
urlImagem: null}`. -/
def putBody1 : Body := ⟨some (.num 2), some (.str "novo"), some (.str "f"), some .null, 0⟩

/-- Witness for C4: a partial body (missing `texto`) is rejected, and the
complete body `putBody1` replaces row 1 of the demo store. -/
theorem claim_C4_witness :
    SJ.put "1" ⟨some (.num 1), none, some (.str "a"), some .null, 0⟩ none demoStore =
      ⟨⟨400, .erro SJ.putMsg⟩, demoStore, []⟩ ∧
    SJ.put "1" putBody1 none demoStore =
      ⟨⟨200, .row (replaceSpec demoRow putBody1)⟩,
       ⟨demoStore.rows.map (fun x => if x.id = 1 then replaceSpec demoRow putBody1 else x),
        demoStore.nextId, demoStore.now⟩,
       [.update (.num 2) (.str "novo") (.str "f") .null 1]⟩ :=
  ⟨((claim_C4 "1" 1 (by decide) ⟨some (.num 1), none, some (.str "a"), some .null, 0⟩
      demoStore).1 (Or.inr (Or.inl rfl)) none).1,
   (((claim_C4 "1" 1 (by decide) putBody1 demoStore).2.1 (by decide)).2 demoRow (by decide)).1⟩

/-! ## Claim C5 -/

/-- A supplied `Usuarios_id` that is not a positive integer fails the
`server.js` / routes per-field check. -/
theorem posIntF_false_parts {x : JField} (hs : x.isSome = true)
    (h : isPosIntF x = false) :
    fIsInteger x = false ∨ fLeZero x = true := by
  rcases x with _ | v
  · simp at hs
  rcases v with _ | bb | q | s
  · left; rfl
  · left; rfl
  · by_cases hd : q.den = 1
    · right
      simp [isPosIntF, hd] at h
      simp [fLeZero, h]
    · left
      simp [fIsInteger, hd]
  · left; rfl

/-- An absent field contributes nothing to `Object.keys`; a present one
guarantees at least one key. -/
theorem keyCount_pos_of_some {b : Body} (hs : b.Usuarios_id.isSome = true) :
    ¬ b.keyCount = 0 := by
  rw [keyCount_split]
  unfold suppliedFields
  simp [hs]

/-- **C5** (amended).  Partial update with an empty body — no keys at all in
the `server.js` / routes variants, none of the four updatable fields in the
`part_001` variant — fails with a 400 validation error and no SQL statement;
and a supplied `owner_user_id` failing its per-field check is likewise
rejected before any store access, where that check is "positive integer" in
the `server.js` / routes variants but only "`Number(value)` is neither NaN
nor below 1" in `part_001`. -/
theorem claim_C5 (idStr : String) (i : Int) (hid : parseId idStr = some i)
    (b : Body) (db : Option String) (st : Store) :
    (b.keyCount = 0 →
      SJ.patch idStr b db st = ⟨⟨400, .erro SJ.patchEmptyMsg⟩, st, []⟩ ∧
      RT.patch idStr b db st = ⟨⟨400, .erro SJ.patchEmptyMsg⟩, st, []⟩) ∧
    (b.Usuarios_id = none ∧ b.texto = none ∧ b.estado = none ∧ b.urlImagem = none →
      P1.patch idStr b db st = ⟨⟨400, .erro P1.patchEmptyMsg⟩, st, []⟩) ∧
    (b.Usuarios_id.isSome = true → isPosIntF b.Usuarios_id = false →
      SJ.patch idStr b db st = ⟨⟨400, .erro SJ.patchUidMsg⟩, st, []⟩ ∧
      RT.patch idStr b db st = ⟨⟨400, .erro SJ.patchUidMsg⟩, st, []⟩) ∧
    (b.Usuarios_id.isSome = true →
      (jsNumIsNaN (jsToNumberO b.Usuarios_id) || jsNumLt1 (jsToNumberO b.Usuarios_id)) = true →
      P1.patch idStr b db st = ⟨⟨400, .erro P1.patchUidMsg⟩, st, []⟩) := by
  refine ⟨fun hk => ?_, fun hall => ?_, fun hs hbad => ?_, fun hs hbad => ?_⟩
  · exact ⟨by simp [SJ.patch, hid, hk], by simp [RT.patch, hid, hk]⟩
  · obtain ⟨h1, h2, h3, h4⟩ := hall
    simp [P1.patch, hid, h1, h2, h3, h4]
  · have hk := keyCount_pos_of_some hs
    rcases posIntF_false_parts hs hbad with h | h <;>
      exact ⟨by simp [SJ.patch, hid, hk, hs, h], by simp [RT.patch, hid, hk, hs, h]⟩
  · obtain ⟨v, hv⟩ := Option.isSome_iff_exists.mp hs
    rw [hv] at hbad
    simp [P1.patch, hid, hv, hbad]

/-- The body `{Usuarios_id: "5"}`: a supplied `owner_user_id` that is not a
positive integer. -/
def cexC5 : Body := ⟨some (.str "5"), none, none, none, 0⟩

/-- **C5** fails as stated on the `part_001` variant: `Usuarios_id: "5"` is
not a positive integer, yet its partial-update handler accepts it (the
`Number(...)` check), issues the UPDATE and answers 200. -/
theorem claim_C5_counterexample :
    isPosIntF cexC5.Usuarios_id = false ∧ cexC5.Usuarios_id.isSome = true ∧
    (P1.patch "1" cexC5 none demoStore).resp.status = 200 ∧
    (P1.patch "1" cexC5 none demoStore).queries ≠ [] :=
  ⟨by decide, by decide, by decide, by decide⟩

/-- Witness for C5: the empty body, and the body `{Usuarios_id: "5"}` against
the `server.js` variant. -/
theorem claim_C5_witness :
    SJ.patch "1" ⟨none, none, none, none, 0⟩ none demoStore =
      ⟨⟨400, .erro SJ.patchEmptyMsg⟩, demoStore, []⟩ ∧
    SJ.patch "1" cexC5 none demoStore = ⟨⟨400, .erro SJ.patchUidMsg⟩, demoStore, []⟩ :=
  ⟨((claim_C5 "1" 1 (by decide) ⟨none, none, none, none, 0⟩ none demoStore).1 (by decide)).1,
   (((claim_C5 "1" 1 (by decide) cexC5 none demoStore).2.2.1 (by decide)) (by decide)).1⟩

/-! ## Claim C6 -/

/-- Spec (C6): the three required create fields are valid. -/
def validRequired (b : Body) : Prop :=
  isPosIntF b.Usuarios_id = true ∧ isNonemptyStrF b.texto = true ∧
  isNonemptyStrF b.estado = true

instance (b : Body) : Decidable (validRequired b) := by
  unfold validRequired; infer_instance

/-- Spec (C6): `image_url` absent, null, or a string. -/
def imgOptShape (b : Body) : Prop :=
  b.urlImagem = none ∨ b.urlImagem = some .null ∨ ∃ s, b.urlImagem = some (.str s)

/-- **C6** (amended).  With valid required fields, the `server.js` and routes
variants treat `urlImagem` as optional: whether it is absent, null or a
string, Create answers 201 with a row echoing the inputs (absent/null image
stored as NULL) under a server-assigned id (the SERIAL counter) and
server-assigned timestamps, and appends exactly that row.  The `part_001`
variant instead requires `urlImagem` to be a non-empty string, and then
behaves the same. -/
theorem claim_C6 (b : Body) (st : Store) (hreq : validRequired b)
    (_himg : imgOptShape b) :
    SJ.create b none st =
      ⟨⟨201, .row ⟨st.nextId, fOrNull b.Usuarios_id, fOrNull b.texto, fOrNull b.estado,
          fOrNull b.urlImagem, st.now, st.now⟩⟩,
       ⟨st.rows ++ [⟨st.nextId, fOrNull b.Usuarios_id, fOrNull b.texto, fOrNull b.estado,
          fOrNull b.urlImagem, st.now, st.now⟩], st.nextId + 1, st.now⟩,
       [.insert (fOrNull b.Usuarios_id) (fOrNull b.texto) (fOrNull b.estado)
          (fOrNull b.urlImagem)]⟩ ∧
    RT.create b none st =
      ⟨⟨201, .row ⟨st.nextId, fOrNull b.Usuarios_id, fOrNull b.texto, fOrNull b.estado,
          fOrNull b.urlImagem, st.now, st.now⟩⟩,
       ⟨st.rows ++ [⟨st.nextId, fOrNull b.Usuarios_id, fOrNull b.texto, fOrNull b.estado,
          fOrNull b.urlImagem, st.now, st.now⟩], st.nextId + 1, st.now⟩,
       [.insert (fOrNull b.Usuarios_id) (fOrNull b.texto) (fOrNull b.estado)
          (fOrNull b.urlImagem)]⟩ ∧
    (isNonemptyStrF b.urlImagem = true →
      P1.create b none st =
        ⟨⟨201, .row ⟨st.nextId, fOrNull b.Usuarios_id, fOrNull b.texto, fOrNull b.estado,
            fOrNull b.urlImagem, st.now, st.now⟩⟩,
         ⟨st.rows ++ [⟨st.nextId, fOrNull b.Usuarios_id, fOrNull b.texto, fOrNull b.estado,
            fOrNull b.urlImagem, st.now, st.now⟩], st.nextId + 1, st.now⟩,
         [.insert (fOrNull b.Usuarios_id) (fOrNull b.texto) (fOrNull b.estado)
            (fOrNull b.urlImagem)]⟩) := by
  obtain ⟨h1, h2, h3⟩ := hreq
  have hval : SJ.createValid b = true := by
    rw [sj_createValid_decomp]; simp [h1, h2, h3]
  have hvalr : RT.createValid b = true := by
    rw [rt_createValid_decomp]; simp [h1, h2, h3]
  refine ⟨by simp [SJ.create, hval, Store.insert], by simp [RT.create, hvalr, Store.insert],
    fun h4 => ?_⟩
  have hvalp : P1.createValid b = true := by
    rw [p1_createValid_decomp]; simp [h2, h3, h4, posIntF_uidOk h1]
  simp [P1.create, hvalp, Store.insert]

/-- The body of the spec's own scenario:
`{Usuarios_id: 1, texto: "Erro ao compilar", estado: "a"}`, image absent. -/
def createBody1 : Body := ⟨some (.num 1), some (.str "Erro ao compilar"), some (.str "a"), none, 0⟩

/-- **C6** fails as stated on the `part_001` variant: the same valid body
with `urlImagem` absent is rejected with 400 there, not 201. -/
theorem claim_C6_counterexample :
    validRequired createBody1 ∧ createBody1.urlImagem = none ∧
    (P1.create createBody1 none demoStore).resp.status = 400 ∧
    (P1.create createBody1 none demoStore).store = demoStore :=
  ⟨by decide, rfl, by decide, by decide⟩

/-- Witness for C6: creating the scenario body (image absent) in the demo
store yields 201, the echoed row under id 3, and the appended store. -/
theorem claim_C6_witness :
    SJ.create createBody1 none demoStore =
      ⟨⟨201, .row ⟨3, .num 1, .str "Erro ao compilar", .str "a", .null, 42, 42⟩⟩,
       ⟨demoStore.rows ++ [⟨3, .num 1, .str "Erro ao compilar", .str "a", .null, 42, 42⟩],
        4, 42⟩,
       [.insert (.num 1) (.str "Erro ao compilar") (.str "a") .null]⟩ :=
  (claim_C6 createBody1 demoStore (by decide) (Or.inl rfl)).1

/-! ## Claim C7 -/

/-- Rows surviving a DELETE of id `i` never match a subsequent
`WHERE id = i`. -/
theorem filter_after_delete (l : List Row) (i : Int) :
    (l.filter (fun x => ¬x.id = i)).filter (fun x => x.id = i) = [] := by
  rw [List.filter_filter]
  apply List.filter_eq_nil_iff.mpr
  intro a ha
  by_cases h : a.id = i <;> simp [h]

/-- A DELETE whose `WHERE id = i` matches nothing keeps every row. -/
theorem filter_delete_no_match {l : List Row} {i : Int}
    (h : l.filter (fun x => x.id = i) = []) :
    l.filter (fun x => ¬x.id = i) = l := by
  rw [List.filter_eq_nil_iff] at h
  apply List.filter_eq_self.mpr
  intro a ha
  have := h a ha
  simp only [decide_eq_true_eq] at this
  simp [this]

/-- **C7** (confirmed).  For a well-formed id, deleting an existing ticket
answers 204 with an empty body and removes exactly the rows with that id, so
that an immediately following Get of the same id answers 404; deleting a
non-existent id answers 404 (not an internal error) and leaves the store
unchanged.  All three variants. -/
theorem claim_C7 (idStr : String) (i : Int) (hid : parseId idStr = some i)
    (st : Store) :
    (st.selectById i ≠ [] →
      SJ.del idStr none st =
        ⟨⟨204, .empty⟩, ⟨st.rows.filter (fun x => ¬x.id = i), st.nextId, st.now⟩,
         [.deleteById i]⟩ ∧
      (SJ.getById idStr none (SJ.del idStr none st).store).resp =
        ⟨404, .erro SJ.notFoundMsg⟩ ∧
      P1.del idStr none st =
        ⟨⟨204, .empty⟩, ⟨st.rows.filter (fun x => ¬x.id = i), st.nextId, st.now⟩,
         [.deleteById i]⟩ ∧
      (P1.getById idStr none (P1.del idStr none st).store).resp =
        ⟨404, .erro P1.notFoundMsg⟩ ∧
      RT.del idStr none st =
        ⟨⟨204, .empty⟩, ⟨st.rows.filter (fun x => ¬x.id = i), st.nextId, st.now⟩,
         [.deleteById i]⟩ ∧
      (RT.getById idStr none (RT.del idStr none st).store).resp =
        ⟨404, .erro SJ.notFoundMsg⟩) ∧
    (st.selectById i = [] →
      SJ.del idStr none st = ⟨⟨404, .erro SJ.notFoundMsg⟩, st, [.deleteById i]⟩ ∧
      P1.del idStr none st = ⟨⟨404, .erro P1.notFoundMsg⟩, st, [.deleteById i]⟩ ∧
      RT.del idStr none st = ⟨⟨404, .erro SJ.notFoundMsg⟩, st, [.deleteById i]⟩) := by
  constructor
  · intro hne
    have hfil : ¬ (st.rows.filter (fun x => x.id = i)).length = 0 := by
      intro h0
      exact hne (List.length_eq_zero.mp h0)
    have hafter : (st.rows.filter (fun x => ¬x.id = i)).filter (fun x => x.id = i) = [] :=
      filter_after_delete st.rows i
    refine ⟨?_, ?_, ?_, ?_, ?_, ?_⟩ <;>
      simp [SJ.del, P1.del, RT.del, SJ.getById, P1.getById, RT.getById, hid,
        Store.deleteById, Store.selectById, hfil, hafter]
  · intro hnone
    have hfil : (st.rows.filter (fun x => x.id = i)).length = 0 := by
      rw [show st.rows.filter (fun x => x.id = i) = [] from hnone]; rfl
    have hkeep : st.rows.filter (fun x => ¬x.id = i) = st.rows :=
      filter_delete_no_match hnone
    simp only [decide_not] at hkeep
    refine ⟨?_, ?_, ?_⟩ <;>
      simp [SJ.del, P1.del, RT.del, hid, Store.deleteById, hfil, hkeep]

/-- Witness for C7: deleting row 1 of the demo store, then getting it;
and deleting the absent id 9. -/
theorem claim_C7_witness :
    (SJ.del "1" none demoStore =
      ⟨⟨204, .empty⟩, ⟨demoStore.rows.filter (fun x => ¬x.id = 1), demoStore.nextId,
        demoStore.now⟩, [.deleteById 1]⟩ ∧
     (SJ.getById "1" none (SJ.del "1" none demoStore).store).resp =
       ⟨404, .erro SJ.notFoundMsg⟩) ∧
    SJ.del "9" none demoStore = ⟨⟨404, .erro SJ.notFoundMsg⟩, demoStore, [.deleteById 9]⟩ :=
  ⟨⟨((claim_C7 "1" 1 (by decide) demoStore).1 (by decide)).1,
    ((claim_C7 "1" 1 (by decide) demoStore).1 (by decide)).2.1⟩,
   ((claim_C7 "9" 9 (by decide) demoStore).2 (by decide)).1⟩

/-! ## Claim C8 -/

/-- **C8** (confirmed).  For every injected store failure `e` — whatever
information it carries (connection error, constraint violation, timeout) —
every operation that reaches the store catches it and answers 500 with the
body `{erro: <fixed message>}` of its variant, independent of `e`; the store
is left unchanged and the failed statement appears exactly once in the trace
(no retry).  The validity hypotheses only say the request reaches the store
at all. -/
theorem claim_C8 (e : String) (st : Store) (idStr : String) (i : Int)
    (hid : parseId idStr = some i) (b : Body) :
    SJ.getAll (some e) st = ⟨⟨500, .erro internalMsg⟩, st, [.selectAll]⟩ ∧
    SJ.getById idStr (some e) st = ⟨⟨500, .erro internalMsg⟩, st, [.selectById i]⟩ ∧
    (SJ.createValid b = true →
      SJ.create b (some e) st = ⟨⟨500, .erro internalMsg⟩, st,
        [.insert (fOrNull b.Usuarios_id) (fOrNull b.texto) (fOrNull b.estado)
          (fOrNull b.urlImagem)]⟩) ∧
    (SJ.putValid b = true →
      SJ.put idStr b (some e) st = ⟨⟨500, .erro internalMsg⟩, st,
        [.update (fOrNull b.Usuarios_id) (fOrNull b.texto) (fOrNull b.estado)
          (fOrNull b.urlImagem) i]⟩) ∧
    (¬ b.keyCount = 0 →
      (b.Usuarios_id.isSome && !(fIsInteger b.Usuarios_id && !fLeZero b.Usuarios_id)) = false →
      SJ.patch idStr b (some e) st = ⟨⟨500, .erro internalMsg⟩, st,
        [.updateCo (fOrNull b.Usuarios_id) (fOrNull b.texto) (fOrNull b.estado)
          (fOrNull b.urlImagem) i]⟩) ∧
    SJ.del idStr (some e) st = ⟨⟨500, .erro internalMsg⟩, st, [.deleteById i]⟩ ∧
    P1.getAll (some e) st = ⟨⟨500, .erro P1.internalMsgP⟩, st, [.selectAll]⟩ ∧
    P1.getById idStr (some e) st = ⟨⟨500, .erro P1.internalMsgP⟩, st, [.selectById i]⟩ ∧
    (P1.createValid b = true →
      P1.create b (some e) st = ⟨⟨500, .erro P1.internalMsgP⟩, st,
        [.insert (fOrNull b.Usuarios_id) (fOrNull b.texto) (fOrNull b.estado)
          (fOrNull b.urlImagem)]⟩) ∧
    (P1.createValid b = true →
      P1.put idStr b (some e) st = ⟨⟨500, .erro P1.internalMsgP⟩, st,
        [.update (fOrNull b.Usuarios_id) (fOrNull b.texto) (fOrNull b.estado)
          (fOrNull b.urlImagem) i]⟩) ∧
    (¬ (b.Usuarios_id = none ∧ b.texto = none ∧ b.estado = none ∧ b.urlImagem = none) →
      (b.Usuarios_id.isSome &&
        (jsNumIsNaN (jsToNumberO b.Usuarios_id) || jsNumLt1 (jsToNumberO b.Usuarios_id))) = false →
      P1.patch idStr b (some e) st = ⟨⟨500, .erro P1.internalMsgP⟩, st,
        [.updateCo (fOrNull b.Usuarios_id) (fOrNull b.texto) (fOrNull b.estado)
          (fOrNull b.urlImagem) i]⟩) ∧
    P1.del idStr (some e) st = ⟨⟨500, .erro P1.internalMsgP⟩, st, [.deleteById i]⟩ ∧
    RT.getAll (some e) st = ⟨⟨500, .erro internalMsg⟩, st, [.selectAll]⟩ ∧
    RT.getById idStr (some e) st = ⟨⟨500, .erro internalMsg⟩, st, [.selectById i]⟩ ∧
    (RT.createValid b = true →
      RT.create b (some e) st = ⟨⟨500, .erro internalMsg⟩, st,
        [.insert (fOrNull b.Usuarios_id) (fOrNull b.texto) (fOrNull b.estado)
          (fOrNull b.urlImagem)]⟩) ∧
    (RT.putValid b = true →
      RT.put idStr b (some e) st = ⟨⟨500, .erro internalMsg⟩, st,
        [.update (fOrNull b.Usuarios_id) (fOrNull b.texto) (fOrNull b.estado)
          (fOrNull b.urlImagem) i]⟩) ∧
    (¬ b.keyCount = 0 →
      (b.Usuarios_id.isSome && !(fIsInteger b.Usuarios_id && !fLeZero b.Usuarios_id)) = false →
      RT.patch idStr b (some e) st = ⟨⟨500, .erro internalMsg⟩, st,
        [.updateCo (fOrNull b.Usuarios_id) (fOrNull b.texto) (fOrNull b.estado)
          (fOrNull b.urlImagem) i]⟩) ∧
    RT.del idStr (some e) st = ⟨⟨500, .erro internalMsg⟩, st, [.deleteById i]⟩ := by
  refine ⟨rfl, by simp [SJ.getById, hid], fun hv => by simp [SJ.create, hv],
    fun hv => by simp [SJ.put, hid, hv], fun hk hu => ?_,
    by simp [SJ.del, hid], rfl, by simp [P1.getById, hid],
    fun hv => by simp [P1.create, hv], fun hv => by simp [P1.put, hid, hv],
    fun hk hu => ?_, by simp [P1.del, hid], rfl, by simp [RT.getById, hid],
    fun hv => by simp [RT.create, hv], fun hv => by simp [RT.put, hid, hv],
    fun hk hu => ?_, by simp [RT.del, hid]⟩
  · have himp : b.Usuarios_id.isSome = true →
        fIsInteger b.Usuarios_id = true ∧ fLeZero b.Usuarios_id = false := by
      intro hs
      rw [hs] at hu
      simpa using hu
    simp only [SJ.patch, hid]
    simp [hk]
    exact himp
  · simp [P1.patch, hid, hk, hu]
  · have himp : b.Usuarios_id.isSome = true →
        fIsInteger b.Usuarios_id = true ∧ fLeZero b.Usuarios_id = false := by
      intro hs
      rw [hs] at hu
      simpa using hu
    simp only [RT.patch, hid]
    simp [hk]
    exact himp

/-- A body valid for create/replace in all three variants. -/
def c8Body : Body := ⟨some (.num 2), some (.str "novo"), some (.str "f"), some (.str "b.png"), 0⟩

/-- Witness for C8: two different injected failure messages produce the same
constant 500 response, with the single failed statement in the trace. -/
theorem claim_C8_witness :
    SJ.getById "1" (some "timeout") demoStore =
      ⟨⟨500, .erro internalMsg⟩, demoStore, [.selectById 1]⟩ ∧
    P1.create c8Body (some "violates foreign key constraint") demoStore =
      ⟨⟨500, .erro P1.internalMsgP⟩, demoStore,
       [.insert (.num 2) (.str "novo") (.str "f") (.str "b.png")]⟩ :=
  ⟨(claim_C8 "timeout" demoStore "1" 1 (by decide) c8Body).2.1,
   (claim_C8 "violates foreign key constraint" demoStore "1" 1 (by decide)
      c8Body).2.2.2.2.2.2.2.2.1 (by decide)⟩

/-! ## Claim C9 -/

/-- A COALESCE update whose four parameters are all NULL keeps every
column. -/
theorem coalesceAll_null (r : Row) : r.coalesceAll .null .null .null .null = r := rfl

/-- **C9** (confirmed, implicit behavior of the `server.js` and routes
variants).  A PATCH body with only unrecognized keys (none of the four
updatable fields, at least one other key) passes validation, issues the
COALESCE update with all four parameters NULL, and — when the id exists —
answers 200 with the stored row entirely unchanged and leaves the store
exactly as it was. -/
theorem claim_C9 (idStr : String) (i : Int) (hid : parseId idStr = some i)
    (b : Body) (hU : b.Usuarios_id = none) (ht : b.texto = none)
    (he : b.estado = none) (hg : b.urlImagem = none) (ho : ¬ b.otherKeys = 0)
    (st : Store) (r : Row) (hr : st.selectById i = [r]) :
    SJ.patch idStr b none st = ⟨⟨200, .row r⟩, st, [.updateCo .null .null .null .null i]⟩ ∧
    RT.patch idStr b none st = ⟨⟨200, .row r⟩, st, [.updateCo .null .null .null .null i]⟩ := by
  have hk : ¬ b.keyCount = 0 := by
    rw [keyCount_split]
    unfold suppliedFields
    rw [hU, ht, he, hg]
    simpa using ho
  have hfil : st.rows.filter (fun x => x.id = i) = [r] := hr
  have hmapid : st.rows.map (fun x =>
      if x.id = i then x.coalesceAll .null .null .null .null else x) = st.rows := by
    have : ∀ x ∈ st.rows, (if x.id = i then x.coalesceAll .null .null .null .null else x) = x := by
      intro x hx
      rw [coalesceAll_null]
      exact ite_self x
    calc st.rows.map (fun x => if x.id = i then x.coalesceAll .null .null .null .null else x)
        = st.rows.map id := List.map_congr_left this
      _ = st.rows := List.map_id st.rows
  constructor <;>
    simp [SJ.patch, RT.patch, hid, hk, hU, ht, he, hg, Store.updateCo, hfil,
      fOrNull, coalesceAll_null, hmapid]

/-- Witness for C9: the body `{foo: 1}` (one unrecognized key) against row 1
of the demo store. -/
theorem claim_C9_witness :
    SJ.patch "1" ⟨none, none, none, none, 1⟩ none demoStore =
      ⟨⟨200, .row demoRow⟩, demoStore, [.updateCo .null .null .null .null 1]⟩ :=
  (claim_C9 "1" 1 (by decide) ⟨none, none, none, none, 1⟩ rfl rfl rfl rfl
    (by decide) demoStore demoRow (by decide)).1

/-! ## Claim C10 -/

/-- Pointwise non-null preservation between an old and a new row. -/
def rowKeepsNonNull (old new : Row) : Prop :=
  (old.usuariosId ≠ .null → new.usuariosId ≠ .null) ∧
  (old.texto ≠ .null → new.texto ≠ .null) ∧
  (old.estado ≠ .null → new.estado ≠ .null) ∧
  (old.urlImagem ≠ .null → new.urlImagem ≠ .null)

theorem rowKeepsNonNull_refl (r : Row) : rowKeepsNonNull r r :=
  ⟨id, id, id, id⟩

/-- `COALESCE(p, old)` is non-null whenever `old` is. -/
theorem coalesce_keeps_ne_null {p old : JsVal} (h : old ≠ .null) :
    coalesce p old ≠ .null := by
  unfold coalesce
  split
  · exact h
  · assumption

theorem coalesceAll_keeps (r : Row) (u t e g : JsVal) :
    rowKeepsNonNull r (r.coalesceAll u t e g) :=
  ⟨fun h => coalesce_keeps_ne_null h, fun h => coalesce_keeps_ne_null h,
   fun h => coalesce_keeps_ne_null h, fun h => coalesce_keeps_ne_null h⟩

/-- Every exit of the `server.js` PATCH handler leaves the store either
untouched or mapped by a per-row COALESCE update. -/
theorem sj_patch_store_shape (idStr : String) (b : Body) (db : Option String)
    (st : Store) :
    (SJ.patch idStr b db st).store = st ∨
    ∃ u t e g i, (SJ.patch idStr b db st).store =
      ⟨st.rows.map (fun x => if x.id = i then x.coalesceAll u t e g else x),
       st.nextId, st.now⟩ := by
  unfold SJ.patch
  split
  · exact Or.inl rfl
  · split
    · exact Or.inl rfl
    · split
      · exact Or.inl rfl
      · split
        · exact Or.inl rfl
        · dsimp only
          split <;> exact Or.inr ⟨_, _, _, _, _, rfl⟩

/-- Every exit of the `part_001` PATCH handler leaves the store either
untouched or mapped by a per-row COALESCE update. -/
theorem p1_patch_store_shape (idStr : String) (b : Body) (db : Option String)
    (st : Store) :
    (P1.patch idStr b db st).store = st ∨
    ∃ u t e g i, (P1.patch idStr b db st).store =
      ⟨st.rows.map (fun x => if x.id = i then x.coalesceAll u t e g else x),
       st.nextId, st.now⟩ := by
  unfold P1.patch
  split
  · exact Or.inl rfl
  · split
    · exact Or.inl rfl
    · split
      · exact Or.inl rfl
      · split
        · exact Or.inl rfl
        · dsimp only
          split <;> exact Or.inr ⟨_, _, _, _, _, rfl⟩

/-- Every exit of the routes-variant PATCH handler leaves the store either
untouched or mapped by a per-row COALESCE update. -/
theorem rt_patch_store_shape (idStr : String) (b : Body) (db : Option String)
    (st : Store) :
    (RT.patch idStr b db st).store = st ∨
    ∃ u t e g i, (RT.patch idStr b db st).store =
      ⟨st.rows.map (fun x => if x.id = i then x.coalesceAll u t e g else x),
       st.nextId, st.now⟩ := by
  unfold RT.patch
  split
  · exact Or.inl rfl
  · split
    · exact Or.inl rfl
    · split
      · exact Or.inl rfl
      · split
        · exact Or.inl rfl
        · dsimp only
          split <;> exact Or.inr ⟨_, _, _, _, _, rfl⟩

/-- Either store shape preserves length and per-row non-nullness. -/
theorem shape_keeps {st s' : Store} {j : Nat} (hj : j < st.rows.length)
    (hs : s' = st ∨ ∃ u t e g i, s' =
      ⟨st.rows.map (fun x => if x.id = i then x.coalesceAll u t e g else x),
       st.nextId, st.now⟩) :
    s'.rows.length = st.rows.length ∧
    ∀ h2 : j < s'.rows.length,
      rowKeepsNonNull (st.rows.get ⟨j, hj⟩) (s'.rows.get ⟨j, h2⟩) := by
  rcases hs with rfl | ⟨u, t, e, g, i, rfl⟩
  · exact ⟨rfl, fun h2 => rowKeepsNonNull_refl _⟩
  · refine ⟨List.length_map _ _, fun h2 => ?_⟩
    have hg : (st.rows.map
        (fun x => if x.id = i then x.coalesceAll u t e g else x)).get ⟨j, h2⟩ =
        (fun x => if x.id = i then x.coalesceAll u t e g else x)
          (st.rows.get ⟨j, hj⟩) := by
      simp
    rw [hg]
    by_cases hxi : (st.rows.get ⟨j, hj⟩).id = i
    · simp only [if_pos hxi]
      exact coalesceAll_keeps _ u t e g
    · simp only [if_neg hxi]
      exact rowKeepsNonNull_refl _

/-- A full-replace body carrying an explicit `urlImagem: null`. -/
def clearBody : Body := ⟨some (.num 4), some (.str "t2"), some (.str "a"), some .null, 0⟩

/-- **C10** (confirmed).  A PATCH request — whatever the id string, body,
store health and store state — never turns a non-null column of any stored
row into NULL (explicit JSON nulls become SQL NULL and COALESCE keeps the
old value), in all three variants; by contrast Replace can clear
`urlImagem`: a PUT with `urlImagem: null` overwrites a non-null image with
NULL. -/
theorem claim_C10 (idStr : String) (b : Body) (db : Option String) (st : Store)
    (j : Nat) (hj : j < st.rows.length) :
    ((SJ.patch idStr b db st).store.rows.length = st.rows.length ∧
     ∀ h2 : j < (SJ.patch idStr b db st).store.rows.length,
       rowKeepsNonNull (st.rows.get ⟨j, hj⟩)
         ((SJ.patch idStr b db st).store.rows.get ⟨j, h2⟩)) ∧
    ((P1.patch idStr b db st).store.rows.length = st.rows.length ∧
     ∀ h2 : j < (P1.patch idStr b db st).store.rows.length,
       rowKeepsNonNull (st.rows.get ⟨j, hj⟩)
         ((P1.patch idStr b db st).store.rows.get ⟨j, h2⟩)) ∧
    ((RT.patch idStr b db st).store.rows.length = st.rows.length ∧
     ∀ h2 : j < (RT.patch idStr b db st).store.rows.length,
       rowKeepsNonNull (st.rows.get ⟨j, hj⟩)
         ((RT.patch idStr b db st).store.rows.get ⟨j, h2⟩)) ∧
    ((SJ.put "2" clearBody none demoStore).resp =
       ⟨200, .row (replaceSpec demoRow2 clearBody)⟩ ∧
     demoRow2.urlImagem ≠ .null ∧ (replaceSpec demoRow2 clearBody).urlImagem = .null) :=
  ⟨shape_keeps hj (sj_patch_store_shape idStr b db st),
   shape_keeps hj (p1_patch_store_shape idStr b db st),
   shape_keeps hj (rt_patch_store_shape idStr b db st),
   by decide, by decide, by decide⟩

/-- Witness for C10 at a PATCH body carrying an explicit `urlImagem: null`
against the demo store. -/
theorem claim_C10_witness :
    (SJ.patch "1" ⟨none, none, none, some .null, 1⟩ none demoStore).store.rows.length =
      demoStore.rows.length :=
  (claim_C10 "1" ⟨none, none, none, some .null, 1⟩ none demoStore 0 (by decide)).1.1
